import Mathlib

/-!
Shallow embedding of `src/main.py` of the data-transformer repository:
a linear pipeline of filter validation and URL construction
(`validate_filter_input`, `construct_url`), fetching with per-item fan-out
(`fetch_data_by_filter`, `fetch_drink_by_id`), and record normalization
(`transform_drinks`).  Network I/O is modelled by passing an explicit
oracle mapping a URL to the HTTP response; Python exceptions are modelled
by an error type `Err` and `Except`; Python dicts of string fields by
association lists.
-/

set_option autoImplicit false

namespace DataTransformer

/-- Python exceptions raised by the script, by class; the payload is the
message of an explicit `raise` (without its f-string prefix), or the key
for a dict-access `KeyError`, or the HTTP status for `HTTPError`. -/
inductive Err where
  | keyError (k : String)
  | valueError (msg : String)
  | typeError (msg : String)
  | httpError (status : Nat)
  | jsonDecodeError
  deriving DecidableEq, Repr

/-- A JSON-object record with string-valued fields (a Python dict),
as an association list. -/
abbrev RawRecord := List (String × String)

/-- Python `d.get(k)`: the value at the first matching key, else absent. -/
def pyGet (r : RawRecord) (k : String) : Option String :=
  match r with
  | [] => none
  | (k2, v) :: rest => if k2 = k then some v else pyGet rest k

/-- Python `d[k]`: the value at key `k`, raising `KeyError` when absent. -/
def getItem (r : RawRecord) (k : String) : Except Err String :=
  match pyGet r k with
  | some v => .ok v
  | none => .error (.keyError k)

/-- The whitespace characters of Python `str.strip` and `\s` (ASCII):
space, tab, newline, carriage return, vertical tab, form feed. -/
def isPySpace (c : Char) : Bool :=
  c.toNat = 32 || c.toNat = 9 || c.toNat = 10 || c.toNat = 13 ||
  c.toNat = 11 || c.toNat = 12

/-- Python `str.lower` on one character (ASCII range). -/
def pyLowerChar (c : Char) : Char :=
  if 65 ≤ c.toNat ∧ c.toNat ≤ 90 then Char.ofNat (c.toNat + 32) else c

/-- Python `str.isdigit` (ASCII): nonempty and all digits. -/
def pyIsDigit (s : String) : Bool :=
  !s.isEmpty && s.data.all Char.isDigit

/-- Python `str.isalnum` (ASCII): nonempty and all letters or digits. -/
def pyIsAlnum (s : String) : Bool :=
  !s.isEmpty && s.data.all Char.isAlphanum

/-- Python `str.strip` on a character list: drop leading and trailing
whitespace. -/
def pyStripList (l : List Char) : List Char :=
  ((l.dropWhile isPySpace).reverse.dropWhile isPySpace).reverse

/-- Python `str.strip`. -/
def pyStrip (s : String) : String :=
  ⟨pyStripList s.data⟩

/-- `re.sub(r"\s+", "-", ·)`: replace each maximal whitespace run with a
single hyphen.  The flag records whether the previous character was
whitespace (i.e. the current run already emitted its hyphen). -/
def subWsAux : Bool → List Char → List Char
  | _, [] => []
  | inRun, c :: rest =>
    if isPySpace c then
      if inRun then subWsAux true rest else '-' :: subWsAux true rest
    else
      c :: subWsAux false rest

/-- The `name_id` computation of `transform_drinks` (line 172):
`re.sub(r"\s+", "-", drink["strDrink"].strip().lower())`. -/
def makeNameId (s : String) : String :=
  ⟨subWsAux false ((pyStripList s.data).map pyLowerChar)⟩

/-- The filter-type catalog of `construct_url`. -/
def filter_type_map : List (String × String) :=
  [("name", "/search.php?s="),
   ("letter", "/search.php?f="),
   ("random", "/random.php"),
   ("ingredient", "/filter.php?i="),
   ("alcoholic", "/filter.php?a="),
   ("category", "/filter.php?c="),
   ("glass", "/filter.php?g=")]

/-- `validate_filter_input` (lines 6-39): `KeyError` for an unknown
filter type; for `letter`, `ValueError` when the value is not a single
character and `TypeError` when it is not alphanumeric. -/
def validate_filter_input (filter_type filter : String)
    (m : List (String × String)) : Except Err Unit :=
  if pyGet m filter_type = none then
    .error (.keyError "The filter type does not exist in the filter type map.")
  else if filter_type = "letter" then
    if filter.length ≠ 1 then
      .error (.valueError "The filter input must be a single character when Filter Type is letter.")
    else if !pyIsAlnum filter then
      .error (.typeError "The filter input must be an alphanumeric character when Filter Type is letter.")
    else .ok ()
  else .ok ()

def base_url : String := "https://www.thecocktaildb.com/api/json/v1/1"

/-- `construct_url` (lines 42-76): validate, then append the catalog path,
and for `random` return the fixed URL with no value slot. -/
def construct_url (filter_type filter : String) : Except Err String := do
  let _ ← validate_filter_input filter_type filter filter_type_map
  let path := (pyGet filter_type_map filter_type).getD ""
  if filter_type = "random" then
    .ok (base_url ++ path)
  else
    .ok (base_url ++ path ++ filter)

/-- A JSON response payload: the object with its `drinks` key, which is
either absent/null (modelled `none`) or a list of records. -/
structure Payload where
  drinks : Option (List RawRecord)
  deriving DecidableEq, Repr

/-- An HTTP response as the script observes it: status code, body text,
and the result of `.json()` (`none` when the body is not parseable). -/
structure HttpResponse where
  status : Nat
  text : String
  jsonBody : Option Payload

/-- The network, as an oracle from request URL to response
(`requests.get`). -/
abbrev Net := String → HttpResponse

/-- A dynamically-typed Python value, as far as `fetch_drink_by_id`
inspects its `id` argument. -/
inductive PyVal where
  | vstr (s : String)
  | vint (n : Int)
  | vnone
  deriving DecidableEq, Repr

/-- `requests.Response.raise_for_status`: `HTTPError` on a 4xx/5xx
status. -/
def raise_for_status (r : HttpResponse) : Except Err Unit :=
  if 400 ≤ r.status then .error (.httpError r.status) else .ok ()

/-- The single-record lookup URL (line 102). -/
def lookup_url (s : String) : String :=
  "https://www.thecocktaildb.com/api/json/v1/1/lookup.php?i=" ++ s

/-- `fetch_drink_by_id` (lines 79-114): `ValueError` unless the id is a
numeric string; GET to the lookup endpoint; `HTTPError` on bad status;
`ValueError` when the payload carries no (or an empty) `drinks` list;
otherwise the first record. -/
def fetch_drink_by_id (net : Net) (id : PyVal) : Except Err RawRecord := do
  match id with
  | .vstr s =>
    if !pyIsDigit s then
      .error (.valueError "The ID must be numeric.")
    else do
      let r := net (lookup_url s)
      let _ ← raise_for_status r
      match r.jsonBody with
      | none => .error .jsonDecodeError
      | some posts =>
        match posts.drinks with
        | none => .error (.valueError "No drinks found for the provided ID.")
        | some [] => .error (.valueError "No drinks found for the provided ID.")
        | some (d :: _) => .ok d
  | _ => .error (.valueError "The ID must be a string.")

/-- The progress condition of the fan-out loop (line 155):
`index == 1 or index % interval == 0 or index == total`. -/
def progressHit (total interval index : Nat) : Bool :=
  index == 1 || index % interval == 0 || index == total

/-- The fan-out loop of `fetch_data_by_filter` (lines 154-161), started at
`index`:  for each stub, emit progress when `progressHit`, read the stub's
`idDrink` (a `KeyError` when absent aborts), fetch the full record by id
(any failure aborts), and append it when truthy (a falsy record — the
empty dict — is skipped).  Returns the indices at which progress was
printed together with the outcome. -/
def processStubs (net : Net) (total interval : Nat) :
    Nat → List RawRecord → List Nat × Except Err (List RawRecord)
  | _, [] => ([], .ok [])
  | index, drink :: rest =>
    let log0 : List Nat := if progressHit total interval index then [index] else []
    match getItem drink "idDrink" with
    | .error e => (log0, .error e)
    | .ok idv =>
      match fetch_drink_by_id net (.vstr idv) with
      | .error e => (log0, .error e)
      | .ok drink_data =>
        let (log1, res1) := processStubs net total interval (index + 1) rest
        (log0 ++ log1,
         res1.map (fun l => if drink_data ≠ [] then drink_data :: l else l))

/-- The categories that require fan-out (line 147). -/
def fanoutTypes : List String := ["ingredient", "alcoholic", "category", "glass"]

/-- `fetch_data_by_filter` (lines 117-165): build the URL (propagating
failures), GET it, `HTTPError` on bad status, `ValueError` on a blank
body, JSON-decode failure when unparseable; for fan-out categories run
`processStubs` over `fetched_data.get("drinks", [])` and wrap the result,
else return the payload as is.  The first component is the list of
indices at which a progress line was printed. -/
def fetch_data_by_filter (net : Net) (filter_type filter : String) :
    List Nat × Except Err Payload :=
  match construct_url filter_type filter with
  | .error e => ([], .error e)
  | .ok url =>
    let r := net url
    match raise_for_status r with
    | .error e => ([], .error e)
    | .ok _ =>
      if (pyStrip r.text).isEmpty then
        ([], .error (.valueError "Received an empty response from the API call."))
      else
        match r.jsonBody with
        | none => ([], .error .jsonDecodeError)
        | some fetched_data =>
          if filter_type ∈ fanoutTypes then
            let drinks_list := fetched_data.drinks.getD []
            let total := drinks_list.length
            let interval := max (total / 10) 1
            let (log, res) := processStubs net total interval 1 drinks_list
            (log, res.map (fun l => ⟨some l⟩))
          else
            ([], .ok fetched_data)

/-- One ingredient of the normalized output: the dict
`{"name": ingredient, "measure": measure}` of line 182, whose measure is
the raw `.get` result (possibly `None`). -/
structure Ingredient where
  name : String
  measure : Option String
  deriving DecidableEq, Repr

/-- One pass of the ingredient loop (lines 175-182) at index `i`:
the slot is appended exactly when `drink.get(f"strIngredient{i}")` is
truthy, its measure carried through as `drink.get(f"strMeasure{i}")`. -/
def slotIngredient (drink : RawRecord) (i : Nat) : Option Ingredient :=
  let ingredient := pyGet drink ("strIngredient" ++ toString i)
  let measure := pyGet drink ("strMeasure" ++ toString i)
  match ingredient with
  | some s => if s ≠ "" then some ⟨s, measure⟩ else none
  | none => none

/-- The full ingredient loop `for i in range(1, 16)`. -/
def buildIngredients (drink : RawRecord) : List Ingredient :=
  (List.range' 1 15).filterMap (slotIngredient drink)

/-- The normalized record built by `transform_drinks` (lines 184-193). -/
structure NormalizedRecord where
  name_id : String
  name : String
  category : String
  classification : String
  glass : String
  instructions : String
  image : String
  ingredients : List Ingredient
  deriving DecidableEq, Repr

/-- The body of the `transform_drinks` loop for one record
(lines 171-194), with field reads in source order: `drink["strDrink"]`
first for `name_id`, then the ingredient loop, then the required fields
of the output dict literal. -/
def transformDrink (drink : RawRecord) : Except Err NormalizedRecord := do
  let nameForId ← getItem drink "strDrink"
  let name_id := makeNameId nameForId
  let ingredients := buildIngredients drink
  let name ← getItem drink "strDrink"
  let category ← getItem drink "strCategory"
  let classification ← getItem drink "strAlcoholic"
  let glass ← getItem drink "strGlass"
  let instructions ← getItem drink "strInstructions"
  let image ← getItem drink "strDrinkThumb"
  .ok ⟨name_id, name, category, classification, glass, instructions, image, ingredients⟩

/-- `transform_drinks` (lines 168-196): normalize each record of
`data["drinks"]` in order; the first failure aborts. -/
def transform_drinks (data : Payload) : Except Err (List NormalizedRecord) :=
  match data.drinks with
  | none => .error (.keyError "drinks")
  | some l => l.mapM transformDrink

/-- A JSON value of the serialized output, as far as an ingredient entry
needs: a string or `null`. -/
inductive JVal where
  | jstr (s : String)
  | jnull
  deriving DecidableEq, Repr

/-- The serialized form of an ingredient entry: the dict literal of
line 182 always carries both keys, a `None` measure becoming JSON
`null`. -/
def Ingredient.toPairs (ing : Ingredient) : List (String × JVal) :=
  [("name", .jstr ing.name),
   ("measure", match ing.measure with | some m => .jstr m | none => .jnull)]

/-- Key lookup in a serialized JSON object. -/
def jGet (l : List (String × JVal)) (k : String) : Option JVal :=
  match l with
  | [] => none
  | (k2, v) :: rest => if k2 = k then some v else jGet rest k

/-- The six required raw fields of the normalizer, in source order. -/
def requiredFields : List String :=
  ["strDrink", "strCategory", "strAlcoholic", "strGlass", "strInstructions", "strDrinkThumb"]

/-- Modelled from the spec (§4.4): the derived slug, "the display name
lowercased, surrounding whitespace trimmed, internal whitespace runs
collapsed to single hyphens", applying the operations in the order the
spec lists them. -/
def specSlug (s : String) : String :=
  ⟨subWsAux false (pyStripList (s.data.map pyLowerChar))⟩

/-- Modelled from the spec (§4.4): an ingredient slot `i ∈ 1..15` is
included iff its name field is present and non-empty, slots kept in index
order, each carrying its name and its measure field as found. -/
def specIngredients (drink : RawRecord) : List Ingredient :=
  ((List.range' 1 15).filter (fun i =>
      match pyGet drink ("strIngredient" ++ toString i) with
      | some s => s ≠ ""
      | none => false)).map
    (fun i => ⟨(pyGet drink ("strIngredient" ++ toString i)).getD "",
               pyGet drink ("strMeasure" ++ toString i)⟩)

/-- The spec's `InvalidFilterValue` kind: the failure raised for a bad
`letter` value (a `ValueError` for a wrong length, a `TypeError` for a
non-alphanumeric character). -/
def isInvalidFilterValue (e : Err) : Prop :=
  e = .valueError "The filter input must be a single character when Filter Type is letter." ∨
  e = .typeError "The filter input must be an alphanumeric character when Filter Type is letter."

/-- The spec's `InvalidId` kind: the failure raised for a non-numeric or
non-string id. -/
def isInvalidId (e : Err) : Prop :=
  e = .valueError "The ID must be a string." ∨
  e = .valueError "The ID must be numeric."

/-- The spec's `InvalidCategory` kind. -/
def isInvalidCategory (e : Err) : Prop :=
  e = .keyError "The filter type does not exist in the filter type map."

/-- The spec's `MissingRequiredField` kind: a `KeyError` on one of the
six required raw fields. -/
def isMissingRequiredField (e : Err) : Prop :=
  ∃ k ∈ requiredFields, e = .keyError k

/-- A value that is a numeric string, the accepted shape of
`fetch_drink_by_id`. -/
def isNumericString (v : PyVal) : Prop :=
  match v with
  | .vstr s => pyIsDigit s = true
  | _ => False

/-- The spec's `NotFound` kind: the failure of a lookup that returns no
record. -/
def isNotFound (e : Err) : Prop :=
  e = .valueError "No drinks found for the provided ID."

/-- The fixed set of supported filter categories, as the spec lists it. -/
def catalogList : List String :=
  ["name", "letter", "random", "ingredient", "alcoholic", "category", "glass"]

/-- A record whose display name is `"  Rum   Punch "`. -/
def rumPunchRec : RawRecord :=
  [("strDrink", "  Rum   Punch "), ("strCategory", "Punch"),
   ("strAlcoholic", "Alcoholic"), ("strGlass", "Jar"),
   ("strInstructions", "Mix."), ("strDrinkThumb", "rum.png")]

/-- A record with ingredient slots 1 and 3 present and 2 absent, slot 1
without a measure. -/
def ginLimeRec : RawRecord :=
  [("strDrink", "Gin Fizz"), ("strIngredient1", "Gin"),
   ("strIngredient3", "Lime"), ("strMeasure3", "1 oz")]

/-- A record whose `strInstructions` field is absent. -/
def noInstrRec : RawRecord :=
  [("strDrink", "X"), ("strCategory", "C"), ("strAlcoholic", "A"),
   ("strGlass", "G"), ("strDrinkThumb", "T")]

/-- A complete raw record, as a single-record lookup returns it. -/
def fullDrinkRec : RawRecord :=
  [("strDrink", "Full"), ("strCategory", "C"), ("strAlcoholic", "A"),
   ("strGlass", "G"), ("strInstructions", "I"), ("strDrinkThumb", "T")]

/-- A successful lookup response carrying one full record. -/
def lookupRespOK : HttpResponse :=
  { status := 200, text := "x", jsonBody := some ⟨some [fullDrinkRec]⟩ }

/-- Twenty-three stub records with ids `"1"` to `"23"`. -/
def stubs23 : List RawRecord :=
  (List.range' 1 23).map (fun k => [("idDrink", toString k)])

/-- A network whose `ingredient=Gin` listing returns the 23 stubs and
whose every other endpoint answers a successful single-record lookup. -/
def net23 : Net := fun url =>
  if url = "https://www.thecocktaildb.com/api/json/v1/1/filter.php?i=Gin" then
    { status := 200, text := "x", jsonBody := some ⟨some stubs23⟩ }
  else
    lookupRespOK

/-- A stub record whose `idDrink` field is absent. -/
def stubNoId : RawRecord := [("strDrink", "Stub")]

/-- A network whose `ingredient=Gin` listing returns a stub without an id
followed by a stub with id `"11"`, and whose every other endpoint answers
a successful single-record lookup. -/
def netMissingId : Net := fun url =>
  if url = "https://www.thecocktaildb.com/api/json/v1/1/filter.php?i=Gin" then
    { status := 200, text := "x",
      jsonBody := some ⟨some [stubNoId, [("idDrink", "11")]]⟩ }
  else
    lookupRespOK

/-- A network that always answers with HTTP status 500. -/
def net500 : Net := fun _ => { status := 500, text := "", jsonBody := none }

/-- A network that always answers 200 with a blank body. -/
def netBlank : Net := fun _ => { status := 200, text := "  ", jsonBody := none }

/-- A network that always answers 200 with an unparseable body. -/
def netBadJson : Net := fun _ => { status := 200, text := "zz", jsonBody := none }

/-- A network that always answers 200 with a payload whose `drinks` key
is absent or null. -/
def netNoDrinks : Net :=
  fun _ => { status := 200, text := "x", jsonBody := some ⟨none⟩ }

/-- A network whose every lookup succeeds but returns a falsy (empty)
record as the first drink. -/
def netEmptyDrink : Net :=
  fun _ => { status := 200, text := "x", jsonBody := some ⟨some [[]]⟩ }

/-! ### Helper lemmas -/

lemma pyGet_filter_type_map_none (ft : String) :
    pyGet filter_type_map ft = none ↔ ft ∉ catalogList := by
  constructor
  · intro h hmem
    have : ft = "name" ∨ ft = "letter" ∨ ft = "random" ∨ ft = "ingredient" ∨
        ft = "alcoholic" ∨ ft = "category" ∨ ft = "glass" := by
      simpa [catalogList] using hmem
    rcases this with rfl | rfl | rfl | rfl | rfl | rfl | rfl <;>
      simp [pyGet, filter_type_map] at h
  · intro h
    have h' : ¬(ft = "name" ∨ ft = "letter" ∨ ft = "random" ∨ ft = "ingredient" ∨
        ft = "alcoholic" ∨ ft = "category" ∨ ft = "glass") := by
      simpa [catalogList] using h
    push_neg at h'
    obtain ⟨h1, h2, h3, h4, h5, h6, h7⟩ := h'
    simp [pyGet, filter_type_map, Ne.symm h1, Ne.symm h2, Ne.symm h3, Ne.symm h4,
      Ne.symm h5, Ne.symm h6, Ne.symm h7]

lemma toNat_ofNat_valid {n : Nat} (h : n < 55296) : (Char.ofNat n).toNat = n := by
  rw [Char.ofNat, dif_pos (Or.inl h)]
  rfl

lemma isPySpace_pyLowerChar (c : Char) : isPySpace (pyLowerChar c) = isPySpace c := by
  unfold pyLowerChar
  split
  · rename_i h
    have h32 : (Char.ofNat (c.toNat + 32)).toNat = c.toNat + 32 :=
      toNat_ofNat_valid (by omega)
    simp only [isPySpace, h32]
    rw [Bool.eq_iff_iff]
    simp only [Bool.or_eq_true, decide_eq_true_eq]
    omega
  · rfl

lemma dropWhile_map_pyLowerChar (l : List Char) :
    List.dropWhile isPySpace (l.map pyLowerChar) =
      (List.dropWhile isPySpace l).map pyLowerChar := by
  induction l with
  | nil => rfl
  | cons c cs ih =>
    by_cases h : isPySpace c
    · simp [List.dropWhile_cons, isPySpace_pyLowerChar, h, ih]
    · simp [List.dropWhile_cons, isPySpace_pyLowerChar, h]

lemma pyStripList_map_pyLowerChar (l : List Char) :
    pyStripList (l.map pyLowerChar) = (pyStripList l).map pyLowerChar := by
  unfold pyStripList
  rw [dropWhile_map_pyLowerChar, ← List.map_reverse, dropWhile_map_pyLowerChar,
    ← List.map_reverse]

lemma makeNameId_eq_specSlug (s : String) : makeNameId s = specSlug s := by
  unfold makeNameId specSlug
  rw [pyStripList_map_pyLowerChar]

/-! ### C9 -/

/-- C9: `construct_url "random" v` is the one fixed random-lookup URL for
every value `v`; any two values give the same URL string. -/
theorem construct_url_random_fixed (v w : String) :
    construct_url "random" v =
      .ok "https://www.thecocktaildb.com/api/json/v1/1/random.php" ∧
    construct_url "random" v = construct_url "random" w := by
  exact ⟨rfl, rfl⟩

/-! ### C4 -/

/-- C4: `construct_url` fails with `InvalidCategory` for every category
outside the fixed catalog; for `letter` it fails with
`InvalidFilterValue` for every value that is not exactly one alphanumeric
character; every other valid category accepts every value of length at
least one. -/
theorem construct_url_contract (ft fv : String) :
    (ft ∉ catalogList →
       ∃ e, construct_url ft fv = .error e ∧ isInvalidCategory e) ∧
    (ft = "letter" → ¬(fv.length = 1 ∧ pyIsAlnum fv = true) →
       ∃ e, construct_url ft fv = .error e ∧ isInvalidFilterValue e) ∧
    (ft = "letter" → fv.length = 1 → pyIsAlnum fv = true →
       ∃ u, construct_url ft fv = .ok u) ∧
    (ft ∈ catalogList → ft ≠ "letter" → 1 ≤ fv.length →
       ∃ u, construct_url ft fv = .ok u) := by
  refine ⟨?_, ?_, ?_, ?_⟩
  · intro h
    have hnone : pyGet filter_type_map ft = none :=
      (pyGet_filter_type_map_none ft).mpr h
    refine ⟨.keyError "The filter type does not exist in the filter type map.", ?_, rfl⟩
    simp [construct_url, validate_filter_input, hnone, bind, Except.bind]
  · rintro rfl hbad
    by_cases hl : fv.length = 1
    · have ha : pyIsAlnum fv = false := by
        rcases Bool.eq_false_or_eq_true (pyIsAlnum fv) with h | h
        · exact absurd ⟨hl, h⟩ hbad
        · exact h
      refine ⟨.typeError "The filter input must be an alphanumeric character when Filter Type is letter.", ?_, Or.inr rfl⟩
      simp [construct_url, validate_filter_input, pyGet, filter_type_map, hl, ha,
        bind, Except.bind]
    · refine ⟨.valueError "The filter input must be a single character when Filter Type is letter.", ?_, Or.inl rfl⟩
      simp [construct_url, validate_filter_input, pyGet, filter_type_map, hl,
        bind, Except.bind]
  · rintro rfl hl ha
    refine ⟨base_url ++ "/search.php?f=" ++ fv, ?_⟩
    simp [construct_url, validate_filter_input, pyGet, filter_type_map, hl, ha,
      bind, Except.bind, base_url]
  · intro hmem hne _
    have : ft = "name" ∨ ft = "letter" ∨ ft = "random" ∨ ft = "ingredient" ∨
        ft = "alcoholic" ∨ ft = "category" ∨ ft = "glass" := by
      simpa [catalogList] using hmem
    rcases this with rfl | rfl | rfl | rfl | rfl | rfl | rfl
    · exact ⟨_, rfl⟩
    · exact absurd rfl hne
    · exact ⟨_, rfl⟩
    · exact ⟨_, rfl⟩
    · exact ⟨_, rfl⟩
    · exact ⟨_, rfl⟩
    · exact ⟨_, rfl⟩

/-- C4 witness: `bogus` is rejected as a category, `bb` and `$` are both
rejected as letter values, `b` is accepted, and `name` accepts a
one-character value. -/
theorem construct_url_contract_witness :
    (∃ e, construct_url "bogus" "x" = .error e ∧ isInvalidCategory e) ∧
    (∃ e, construct_url "letter" "bb" = .error e ∧ isInvalidFilterValue e) ∧
    (∃ e, construct_url "letter" "$" = .error e ∧ isInvalidFilterValue e) ∧
    (∃ u, construct_url "letter" "b" = .ok u) ∧
    (∃ u, construct_url "name" "b" = .ok u) :=
  ⟨(construct_url_contract "bogus" "x").1 (by decide),
   (construct_url_contract "letter" "bb").2.1 rfl (by decide),
   (construct_url_contract "letter" "$").2.1 rfl (by decide),
   (construct_url_contract "letter" "b").2.2.1 rfl (by decide) (by decide),
   (construct_url_contract "name" "b").2.2.2 (by decide) (by decide) (by decide)⟩

/-! ### C6 -/

/-- C6: for every record the normalizer accepts, the derived `name_id` is
the display name lowercased, trimmed, with internal whitespace runs
collapsed to single hyphens; in particular the display name
`"  Rum   Punch "` yields `"rum-punch"`. -/
theorem name_id_spec :
    (∀ r nr, transformDrink r = .ok nr → nr.name_id = specSlug nr.name) ∧
    makeNameId "  Rum   Punch " = "rum-punch" := by
  constructor
  · intro r nr h
    simp only [transformDrink, bind, Except.bind, getItem] at h
    repeat' split at h
    all_goals simp_all [makeNameId_eq_specSlug]
    subst h
    rfl
  · rfl

/-- C6 witness: the `"  Rum   Punch "` record normalizes with
`name_id = "rum-punch"`, which is its spec slug. -/
theorem name_id_spec_witness :
    (⟨"rum-punch", "  Rum   Punch ", "Punch", "Alcoholic", "Jar", "Mix.",
      "rum.png", []⟩ : NormalizedRecord).name_id =
      specSlug "  Rum   Punch " ∧
    specSlug "  Rum   Punch " = "rum-punch" :=
  ⟨name_id_spec.1 rumPunchRec _ rfl, rfl⟩

/-! ### C3 -/

/-- C3: the ingredient loop includes slot `i ∈ 1..15` iff the name field
at `i` is present and non-empty, keeps slots in index order, and carries
each measure field through as found; with slots 1 and 3 present (2
absent) the output has length 2, slot 1 before slot 3, and no
placeholder for the absent measure. -/
theorem ingredients_spec :
    (∀ drink, buildIngredients drink = specIngredients drink) ∧
    buildIngredients ginLimeRec =
      [⟨"Gin", none⟩, ⟨"Lime", some "1 oz"⟩] := by
  constructor
  · intro drink
    unfold buildIngredients specIngredients
    generalize List.range' 1 15 = l
    induction l with
    | nil => rfl
    | cons i t ih =>
      rw [List.filterMap_cons, List.filter_cons]
      cases hI : pyGet drink ("strIngredient" ++ toString i) with
      | none => simp [slotIngredient, hI, ih]
      | some s =>
        by_cases hs : s = ""
        · simp [slotIngredient, hI, hs, ih]
        · simp [slotIngredient, hI, hs, ih]
  · rfl

/-! ### C5 -/

lemma transformDrink_fields (r : RawRecord) :
    (∀ k ∈ requiredFields, (pyGet r k).isSome = true) ∨
    (∃ e, transformDrink r = .error e ∧ isMissingRequiredField e) := by
  cases h1 : pyGet r "strDrink" with
  | none =>
    exact Or.inr ⟨.keyError "strDrink",
      by simp [transformDrink, getItem, h1, bind, Except.bind],
      "strDrink", by simp [requiredFields], rfl⟩
  | some v1 =>
  cases h2 : pyGet r "strCategory" with
  | none =>
    exact Or.inr ⟨.keyError "strCategory",
      by simp [transformDrink, getItem, h1, h2, bind, Except.bind],
      "strCategory", by simp [requiredFields], rfl⟩
  | some v2 =>
  cases h3 : pyGet r "strAlcoholic" with
  | none =>
    exact Or.inr ⟨.keyError "strAlcoholic",
      by simp [transformDrink, getItem, h1, h2, h3, bind, Except.bind],
      "strAlcoholic", by simp [requiredFields], rfl⟩
  | some v3 =>
  cases h4 : pyGet r "strGlass" with
  | none =>
    exact Or.inr ⟨.keyError "strGlass",
      by simp [transformDrink, getItem, h1, h2, h3, h4, bind, Except.bind],
      "strGlass", by simp [requiredFields], rfl⟩
  | some v4 =>
  cases h5 : pyGet r "strInstructions" with
  | none =>
    exact Or.inr ⟨.keyError "strInstructions",
      by simp [transformDrink, getItem, h1, h2, h3, h4, h5, bind, Except.bind],
      "strInstructions", by simp [requiredFields], rfl⟩
  | some v5 =>
  cases h6 : pyGet r "strDrinkThumb" with
  | none =>
    exact Or.inr ⟨.keyError "strDrinkThumb",
      by simp [transformDrink, getItem, h1, h2, h3, h4, h5, h6, bind, Except.bind],
      "strDrinkThumb", by simp [requiredFields], rfl⟩
  | some v6 =>
    left
    intro k hk
    have : k = "strDrink" ∨ k = "strCategory" ∨ k = "strAlcoholic" ∨
        k = "strGlass" ∨ k = "strInstructions" ∨ k = "strDrinkThumb" := by
      simpa [requiredFields] using hk
    rcases this with rfl | rfl | rfl | rfl | rfl | rfl <;>
      simp [h1, h2, h3, h4, h5, h6]

/-- C5: a record missing any of the six required raw fields makes the
normalizer fail with a `MissingRequiredField` error (a `KeyError` naming
a required field), not crash or silently omit the key. -/
theorem missing_required_field (r : RawRecord)
    (h : ∃ k ∈ requiredFields, pyGet r k = none) :
    ∃ e, transformDrink r = .error e ∧ isMissingRequiredField e := by
  rcases transformDrink_fields r with hall | hmiss
  · rcases h with ⟨k, hk, hn⟩
    have := hall k hk
    simp [hn] at this
  · exact hmiss

/-- C5 witness: the record missing `strInstructions` fails with a
`MissingRequiredField` error. -/
theorem missing_required_field_witness :
    ∃ e, transformDrink noInstrRec = .error e ∧ isMissingRequiredField e :=
  missing_required_field noInstrRec ⟨"strInstructions", by decide, by decide⟩

/-! ### C10 -/

/-- C10: every ingredient entry the normalizer emits serializes with a
`measure` key; when the raw measure field at that slot is absent the key
is present with value `null`, never omitted. -/
theorem measure_key_always (drink : RawRecord) :
    (∀ ing ∈ buildIngredients drink,
       jGet ing.toPairs "measure" =
         some (match ing.measure with | some m => .jstr m | none => .jnull)) ∧
    (∀ i ing, slotIngredient drink i = some ing →
       pyGet drink ("strMeasure" ++ toString i) = none →
       jGet ing.toPairs "measure" = some .jnull) := by
  constructor
  · intro ing _
    simp [Ingredient.toPairs, jGet]
  · intro i ing h hm
    simp only [slotIngredient, hm] at h
    cases hI : pyGet drink ("strIngredient" ++ toString i) with
    | none => simp [hI] at h
    | some s =>
      simp only [hI] at h
      by_cases hs : s = ""
      · simp [hs] at h
      · simp only [ne_eq, hs, not_false_eq_true, if_true, Option.some.injEq] at h
        subst h
        simp [Ingredient.toPairs, jGet]

/-- C10 witness: with slot 1 present and its measure absent, the emitted
entry carries the `measure` key with value `null`. -/
theorem measure_key_always_witness :
    jGet (⟨"Gin", none⟩ : Ingredient).toPairs "measure" = some .jnull ∧
    jGet (⟨"Gin", none⟩ : Ingredient).toPairs "measure" =
      some (match (none : Option String) with
            | some m => JVal.jstr m | none => .jnull) :=
  ⟨(measure_key_always [("strIngredient1", "Gin")]).2 1 ⟨"Gin", none⟩ rfl rfl,
   (measure_key_always [("strIngredient1", "Gin")]).1 ⟨"Gin", none⟩ (by decide)⟩

/-! ### C8 -/

/-- C8: the single-record lookup fails with `InvalidId` for every id that
is not a numeric string, with `TransportError` (the HTTP status error) on
a non-success status, and with `NotFound` when the lookup payload carries
no record. -/
theorem lookup_by_id_contract (net : Net) (id : PyVal) :
    (¬ isNumericString id →
       ∃ e, fetch_drink_by_id net id = .error e ∧ isInvalidId e) ∧
    (∀ s, id = .vstr s → pyIsDigit s = true →
       (400 ≤ (net (lookup_url s)).status →
          fetch_drink_by_id net id = .error (.httpError (net (lookup_url s)).status)) ∧
       ((net (lookup_url s)).status < 400 →
          ∀ posts, (net (lookup_url s)).jsonBody = some posts →
          (posts.drinks = none ∨ posts.drinks = some []) →
          ∃ e, fetch_drink_by_id net id = .error e ∧ isNotFound e)) := by
  constructor
  · intro h
    match id with
    | .vstr s =>
      have hd : pyIsDigit s = false := by
        rcases Bool.eq_false_or_eq_true (pyIsDigit s) with h' | h'
        · exact absurd (h' : isNumericString (.vstr s)) h
        · exact h'
      exact ⟨.valueError "The ID must be numeric.",
        by simp [fetch_drink_by_id, hd, bind, Except.bind], Or.inr rfl⟩
    | .vint n =>
      exact ⟨.valueError "The ID must be a string.", rfl, Or.inl rfl⟩
    | .vnone =>
      exact ⟨.valueError "The ID must be a string.", rfl, Or.inl rfl⟩
  · rintro s rfl hd
    constructor
    · intro h400
      simp [fetch_drink_by_id, hd, raise_for_status, bind, Except.bind,
        Nat.not_lt.mpr h400, h400]
    · intro hlt posts hj hdr
      refine ⟨.valueError "No drinks found for the provided ID.", ?_, rfl⟩
      rcases hdr with hdr | hdr <;>
        simp [fetch_drink_by_id, hd, raise_for_status, bind, Except.bind,
          Nat.not_le.mpr hlt, hj, hdr]

/-- C8 witness: a non-string id, a non-numeric string id, a 500 status,
and a payload with no drinks each fail as the contract states. -/
theorem lookup_by_id_contract_witness :
    (∃ e, fetch_drink_by_id net500 (.vint 3) = .error e ∧ isInvalidId e) ∧
    (∃ e, fetch_drink_by_id net500 (.vstr "12a") = .error e ∧ isInvalidId e) ∧
    fetch_drink_by_id net500 (.vstr "7") = .error (.httpError 500) ∧
    (∃ e, fetch_drink_by_id netNoDrinks (.vstr "7") = .error e ∧ isNotFound e) :=
  ⟨(lookup_by_id_contract net500 (.vint 3)).1 (by intro h; exact h),
   (lookup_by_id_contract net500 (.vstr "12a")).1
     (by intro h; have h2 : pyIsDigit "12a" = true := h; exact absurd h2 (by decide)),
   ((lookup_by_id_contract net500 (.vstr "7")).2 "7" rfl (by decide)).1
     (by decide),
   ((lookup_by_id_contract netNoDrinks (.vstr "7")).2 "7" rfl (by decide)).2
     (by decide) ⟨none⟩ rfl (Or.inl rfl)⟩

/-! ### C7 -/

/-- C7: the fetcher propagates request-builder failures unchanged, and
otherwise fails with the HTTP status error on a non-success status, an
empty-response error on a blank body, and a JSON-decode error on an
unparseable body, checked in that order. -/
theorem fetch_contract (net : Net) (ft fv : String) :
    (∀ e, construct_url ft fv = .error e →
       fetch_data_by_filter net ft fv = ([], .error e)) ∧
    (∀ url, construct_url ft fv = .ok url →
       (400 ≤ (net url).status →
          fetch_data_by_filter net ft fv =
            ([], .error (.httpError (net url).status))) ∧
       ((net url).status < 400 → (pyStrip (net url).text).isEmpty = true →
          fetch_data_by_filter net ft fv =
            ([], .error (.valueError "Received an empty response from the API call."))) ∧
       ((net url).status < 400 → (pyStrip (net url).text).isEmpty = false →
          (net url).jsonBody = none →
          fetch_data_by_filter net ft fv = ([], .error .jsonDecodeError))) := by
  refine ⟨?_, ?_⟩
  · intro e he
    simp [fetch_data_by_filter, he]
  · intro url hurl
    refine ⟨?_, ?_, ?_⟩
    · intro h400
      simp [fetch_data_by_filter, hurl, raise_for_status, h400,
        Nat.not_lt.mpr h400]
    · intro hlt hblank
      simp [fetch_data_by_filter, hurl, raise_for_status, Nat.not_le.mpr hlt,
        hblank]
    · intro hlt hblank hjson
      simp [fetch_data_by_filter, hurl, raise_for_status, Nat.not_le.mpr hlt,
        hblank, hjson]

/-- C7 witness: a builder failure propagates unchanged; a 500 status, a
blank body, and an unparseable body fail as the contract states. -/
theorem fetch_contract_witness :
    fetch_data_by_filter net500 "bogus" "x" =
      ([], .error (.keyError "The filter type does not exist in the filter type map.")) ∧
    fetch_data_by_filter net500 "name" "a" = ([], .error (.httpError 500)) ∧
    fetch_data_by_filter netBlank "name" "a" =
      ([], .error (.valueError "Received an empty response from the API call.")) ∧
    fetch_data_by_filter netBadJson "name" "a" = ([], .error .jsonDecodeError) :=
  ⟨(fetch_contract net500 "bogus" "x").1 _ rfl,
   ((fetch_contract net500 "name" "a").2 _ rfl).1 (by decide),
   ((fetch_contract netBlank "name" "a").2 _ rfl).2.1 (by decide) (by decide),
   ((fetch_contract netBadJson "name" "a").2 _ rfl).2.2 (by decide) (by decide) rfl⟩

/-! ### C1 -/

/-- C1 counterexample: with a two-stub listing whose first stub lacks
its `idDrink` field and whose second stub would look up successfully, the
whole fetch aborts with a `KeyError` instead of skipping the first stub
and continuing. -/
theorem fanout_missing_id_counterexample :
    fetch_data_by_filter netMissingId "ingredient" "Gin" =
      ([1], .error (.keyError "idDrink")) ∧
    fetch_drink_by_id netMissingId (.vstr "11") = .ok fullDrinkRec :=
  ⟨rfl, rfl⟩

/-- C1 amended: every follow-up failure aborts the whole fetch, including
a stub whose `idDrink` field is absent, which aborts with a `KeyError`
rather than being skipped; the only stub silently skipped is one whose
lookup succeeds but returns a falsy (empty) record, after which the fetch
continues with the remaining stubs. -/
theorem fanout_abort_amended (net : Net) (total interval index : Nat)
    (drink : RawRecord) (rest : List RawRecord) :
    (pyGet drink "idDrink" = none →
       (processStubs net total interval index (drink :: rest)).2 =
         .error (.keyError "idDrink")) ∧
    (∀ idv e, pyGet drink "idDrink" = some idv →
       fetch_drink_by_id net (.vstr idv) = .error e →
       (processStubs net total interval index (drink :: rest)).2 = .error e) ∧
    (∀ idv, pyGet drink "idDrink" = some idv →
       fetch_drink_by_id net (.vstr idv) = .ok [] →
       (processStubs net total interval index (drink :: rest)).2 =
         (processStubs net total interval (index + 1) rest).2) := by
  refine ⟨?_, ?_, ?_⟩
  · intro hid
    simp [processStubs, getItem, hid]
  · intro idv e hid hf
    simp [processStubs, getItem, hid, hf]
  · intro idv hid hf
    rcases hps : processStubs net total interval (index + 1) rest with ⟨log1, res1⟩
    simp only [processStubs, getItem, hid, hf, hps]
    cases res1 <;> simp [Except.map]

/-- C1 amended witness: the missing-id stub aborts; a failing lookup
aborts; a falsy looked-up record is skipped and processing continues. -/
theorem fanout_abort_amended_witness :
    (processStubs netMissingId 2 1 1 [stubNoId, [("idDrink", "11")]]).2 =
      .error (.keyError "idDrink") ∧
    (processStubs net500 1 1 1 [[("idDrink", "7")]]).2 =
      .error (.httpError 500) ∧
    (processStubs netEmptyDrink 2 1 1 [[("idDrink", "7")], [("idDrink", "8")]]).2 =
      (processStubs netEmptyDrink 2 1 2 [[("idDrink", "8")]]).2 :=
  ⟨(fanout_abort_amended netMissingId 2 1 1 stubNoId [[("idDrink", "11")]]).1 rfl,
   (fanout_abort_amended net500 1 1 1 [("idDrink", "7")] []).2.1 "7"
     (.httpError 500) rfl rfl,
   (fanout_abort_amended netEmptyDrink 2 1 1 [("idDrink", "7")]
     [[("idDrink", "8")]]).2.2 "7" rfl rfl⟩

/-! ### C2 -/

/-- C2 counterexample: a fan-out fetch over exactly 23 stubs emits
progress at entries 1, 2, 4, 6, 8, 10, 12, 14, 16, 18, 20, 22, 23 — not
at exactly 1, 10, 20, 23 (the step size is `max(23 / 10, 1) = 2`). -/
theorem progress_23_counterexample :
    stubs23.length = 23 ∧
    (fetch_data_by_filter net23 "ingredient" "Gin").1 =
      [1, 2, 4, 6, 8, 10, 12, 14, 16, 18, 20, 22, 23] ∧
    (fetch_data_by_filter net23 "ingredient" "Gin").1 ≠ [1, 10, 20, 23] := by
  refine ⟨rfl, rfl, ?_⟩
  decide

lemma processStubs_log (net : Net) (total interval : Nat) :
    ∀ (stubs : List RawRecord) (index : Nat) (log : List Nat)
      (l : List RawRecord),
      processStubs net total interval index stubs = (log, .ok l) →
      log = (List.range' index stubs.length).filter
        (fun i => progressHit total interval i) := by
  intro stubs
  induction stubs with
  | nil =>
    intro index log l h
    simp only [processStubs, Prod.mk.injEq] at h
    simp [← h.1]
  | cons drink rest ih =>
    intro index log l h
    simp only [processStubs] at h
    cases hid : getItem drink "idDrink" with
    | error e => simp [hid] at h
    | ok idv =>
      cases hf : fetch_drink_by_id net (.vstr idv) with
      | error e => simp [hid, hf] at h
      | ok dd =>
        rcases hps : processStubs net total interval (index + 1) rest with ⟨log1, res1⟩
        simp only [hid, hf, hps] at h
        cases res1 with
        | error e => simp [Except.map] at h
        | ok l1 =>
          simp only [Except.map, Prod.mk.injEq] at h
          have hlog := ih (index + 1) log1 l1 hps
          rw [← h.1, hlog, List.length_cons, List.range'_succ,
            List.filter_cons]
          by_cases hp : progressHit total interval index <;> simp [hp]

/-- C2 amended: during fan-out, when the fetch succeeds, progress is
emitted exactly at the entries `i` of `1..total` with `i = 1`, or
`i % interval = 0` for `interval = max(total / 10, 1)`, or `i = total`
(for 23 stubs: entries 1, 2, 4, ..., 22, 23); outside fan-out no
progress is emitted. -/
theorem progress_schedule (net : Net) (ft fv : String) :
    (∀ url fetched p, construct_url ft fv = .ok url →
       (net url).jsonBody = some fetched →
       (fetch_data_by_filter net ft fv).2 = .ok p → ft ∈ fanoutTypes →
       (fetch_data_by_filter net ft fv).1 =
         (List.range' 1 (fetched.drinks.getD []).length).filter
           (fun i => progressHit (fetched.drinks.getD []).length
             (max ((fetched.drinks.getD []).length / 10) 1) i)) ∧
    (ft ∉ fanoutTypes → (fetch_data_by_filter net ft fv).1 = []) := by
  constructor
  · intro url fetched p hurl hj hok hft
    cases h1 : raise_for_status (net url) with
    | error e =>
      rw [fetch_data_by_filter, hurl] at hok ⊢
      simp [h1] at hok
    | ok u =>
      by_cases hb : (pyStrip (net url).text).isEmpty
      · rw [fetch_data_by_filter, hurl] at hok ⊢
        simp [h1, hb] at hok
      · rw [fetch_data_by_filter, hurl] at hok ⊢
        simp only [h1, hb, hj, hft, Bool.false_eq_true, if_false, if_true,
          reduceCtorEq] at hok ⊢
        rcases hps : processStubs net (fetched.drinks.getD []).length
            (max ((fetched.drinks.getD []).length / 10) 1) 1
            (fetched.drinks.getD []) with ⟨log, res⟩
        cases res with
        | error e => rw [hps] at hok; simp [Except.map] at hok
        | ok l =>
          simpa using processStubs_log net _ _ (fetched.drinks.getD []) 1 log l hps
  · intro hft
    cases hurl : construct_url ft fv with
    | error e => simp [fetch_data_by_filter, hurl]
    | ok url =>
      cases h1 : raise_for_status (net url) with
      | error e => simp [fetch_data_by_filter, hurl, h1]
      | ok u =>
        by_cases hb : (pyStrip (net url).text).isEmpty
        · simp [fetch_data_by_filter, hurl, h1, hb]
        · cases hj : (net url).jsonBody with
          | none => simp [fetch_data_by_filter, hurl, h1, hb, hj]
          | some fetched => simp [fetch_data_by_filter, hurl, h1, hb, hj, hft]

/-- C2 amended witness: the 23-stub fan-out run emits progress exactly on
the computed schedule, and a non-fan-out fetch emits none. -/
theorem progress_schedule_witness :
    (fetch_data_by_filter net23 "ingredient" "Gin").1 =
      (List.range' 1 stubs23.length).filter
        (fun i => progressHit stubs23.length (max (stubs23.length / 10) 1) i) ∧
    (fetch_data_by_filter net23 "name" "a").1 = [] :=
  ⟨(progress_schedule net23 "ingredient" "Gin").1
      "https://www.thecocktaildb.com/api/json/v1/1/filter.php?i=Gin"
      ⟨some stubs23⟩ ⟨some (List.replicate 23 fullDrinkRec)⟩
      rfl rfl rfl (by decide),
   (progress_schedule net23 "name" "a").2 (by decide)⟩

end DataTransformer
